import Mathlib

/-!
Shallow embedding of the FraudShield AI front end: the verification
orchestrator state machine (`handleVerify`, the submit control's disabled
guard), the result-rendering contract (`getScoreColor`, the progress-bar
style, the view selector), the mock result generator, and the complaint
draft composer (`handleReport`), translated from `src/App.tsx`,
`ResultsCard` and `VerificationCard`.
-/

/-- The four verification categories (the `activeTab` union type). -/
inductive Category
  | advisor
  | announcement
  | social
  | anomaly
deriving DecidableEq, Repr

/-- The string value each tab carries (the TS union is of string literals). -/
def Category.id : Category → String
  | .advisor => "advisor"
  | .announcement => "announcement"
  | .social => "social"
  | .anomaly => "anomaly"

/-- The `risk_level` union type `'Low' | 'Medium' | 'High'`. -/
inductive RiskLevel
  | Low
  | Medium
  | High
deriving DecidableEq, Repr

/-- The `VerificationResult` interface. `risk_score` is an integer: every
producer floors it. The opaque, never-read `evidence?` payload is omitted. -/
structure VerificationResult where
  risk_score : Int
  risk_level : RiskLevel
  reasons : List String
  ai_explanation : String
deriving DecidableEq, Repr

/-- The orchestrator's owned state: the four `useState` cells of `App`. -/
structure AppState where
  activeTab : Category
  loading : Bool
  results : Option VerificationResult
  inputValue : String
deriving DecidableEq, Repr

/-- Outcome of the awaited verification collaborator call. -/
inductive VerifyOutcome
  | success (r : VerificationResult)
  | failure
deriving DecidableEq, Repr

/-- JavaScript `String.prototype.trim`: strip leading and trailing
whitespace characters. -/
def jsTrim (s : String) : String :=
  String.mk (((s.data.dropWhile Char.isWhitespace).reverse.dropWhile
    Char.isWhitespace).reverse)

/-- Synchronous prefix of `handleVerify`: the guard `if (!inputValue.trim())
return`, then `setLoading(true); setResults(null)`. Second component counts
collaborator invocations started by this call. -/
def handleVerifyStart (s : AppState) : AppState × Nat :=
  if jsTrim s.inputValue = "" then (s, 0)
  else ({ s with loading := true, results := none }, 1)

/-- Resolution of the awaited call: `setResults(mockResult)` on success, the
`catch` branch's `console.error` on failure, and the `finally` branch's
`setLoading(false)` in both cases. Second component is the console log. -/
def handleVerifySettle (o : VerifyOutcome) (s : AppState) : AppState × List String :=
  match o with
  | .success r => ({ s with results := some r, loading := false }, [])
  | .failure => ({ s with loading := false }, ["Verification failed:"])

/-- A whole `handleVerify` run: guard, synchronous phase, then resolution.
Returns (final state, collaborator invocations, console logs). -/
def handleVerifyRun (s : AppState) (o : VerifyOutcome) : AppState × Nat × List String :=
  let (s1, n) := handleVerifyStart s
  if n = 0 then (s1, 0, [])
  else
    let (s2, logs) := handleVerifySettle o s1
    (s2, n, logs)

/-- The submit control's guard in `VerificationCard`:
`disabled={!inputValue.trim() || loading}`. -/
def verifyDisabled (s : AppState) : Bool :=
  jsTrim s.inputValue = "" || s.loading

/-- A click on the submit control: a disabled button fires nothing, an
enabled one runs `handleVerify`. -/
def clickVerify (s : AppState) (o : VerifyOutcome) : AppState × Nat × List String :=
  if verifyDisabled s then (s, 0, []) else handleVerifyRun s o

/-- The three mutually exclusive presentations of the results column. -/
inductive View
  | spinner
  | resultsCard (r : VerificationResult)
  | empty
deriving DecidableEq, Repr

/-- The results column of `App`: `loading ? <LoadingSpinner/> : results ?
<ResultsCard/> : <empty "Ready to Analyze" panel>`. -/
def render (s : AppState) : View :=
  if s.loading then .spinner
  else
    match s.results with
    | some r => .resultsCard r
    | none => .empty

/-- The textarea's `onChange` handler: `setInputValue(e.target.value)`. -/
def setInputValue (v : String) (s : AppState) : AppState :=
  { s with inputValue := v }

/-- A tab button's `onClick` handler: `setActiveTab(tab.id)`. -/
def setActiveTab (c : Category) (s : AppState) : AppState :=
  { s with activeTab := c }

/-- `getScoreColor` from `ResultsCard`, over arbitrary numeric scores. -/
def getScoreColor (score : ℚ) : String :=
  if score < 40 then "text-red-600"
  else if score < 70 then "text-yellow-600"
  else "text-green-600"

/-- The progress bar's inline `backgroundColor` conditional in `ResultsCard`. -/
def barFillColor (score : ℚ) : String :=
  if score < 40 then "#DC2626"
  else if score < 70 then "#D97706"
  else "#16A34A"

/-- The inline style object of the progress-bar fill `div`. -/
structure BarStyle where
  width : String
  backgroundColor : String
deriving DecidableEq, Repr

/-- The progress-bar fill style rendered by `ResultsCard`:
width is the template string of the score with a percent sign. -/
def progressBarStyle (r : VerificationResult) : BarStyle :=
  { width := toString r.risk_score ++ "%"
  , backgroundColor := barFillColor (r.risk_score : ℚ) }

/-- The numeral's color class in `ResultsCard`. -/
def scoreNumeralColor (r : VerificationResult) : String :=
  getScoreColor (r.risk_score : ℚ)

/-- The four `Math.random()` draws a `handleVerify` success consumes, in
source order: score, the High draw, the Medium draw, the explanation draw. -/
structure RandDraws where
  r1 : ℚ
  r2 : ℚ
  r3 : ℚ
  r4 : ℚ

/-- The `mockResult` literal built inside `handleVerify`. -/
def mockResult (g : RandDraws) (activeTab : Category) (inputValue : String) :
    VerificationResult :=
  { risk_score := ⌊g.r1 * 100⌋
  , risk_level :=
      if g.r2 > 3/5 then .High else if g.r3 > 3/10 then .Medium else .Low
  , reasons :=
      [ (match activeTab with
         | .advisor => "Advisor not found in SEBI registry"
         | .announcement => "No matching official filing found"
         | .social => "Contains suspicious keywords"
         | .anomaly => "Unusual volume spike detected")
      , "AI analysis flagged potential fraud indicators" ]
  , ai_explanation :=
      "Based on our analysis of \"" ++ inputValue ++ "\", this appears to be "
        ++ (if g.r4 > 1/2 then "suspicious" else "potentially legitimate")
        ++ " content. Our AI detected several red flags including unregistered "
        ++ "entities and promises of guaranteed returns." }

/-- JS string coercion of an optionally-chained field access: `null`
short-circuits the chain to `undefined`, which a template string prints. -/
def jsOptStr (o : Option VerificationResult) (f : VerificationResult → String) :
    String :=
  match o with
  | some r => f r
  | none => "undefined"

/-- The `subject` template string of `handleReport`. -/
def handleReportSubject (s : AppState) : String :=
  "Fraud Report - " ++ s.activeTab.id ++ " Verification"

/-- The `body` template string of `handleReport`. -/
def handleReportBody (s : AppState) : String :=
  "Dear SEBI,\n\nI would like to report a potential fraud case:\n\nType: "
    ++ s.activeTab.id
    ++ "\nContent: " ++ s.inputValue
    ++ "\nRisk Score: " ++ jsOptStr s.results (fun r => toString r.risk_score)
    ++ "\nReasons: "
    ++ jsOptStr s.results (fun r => String.intercalate ", " r.reasons)
    ++ "\n\nAI Analysis: " ++ jsOptStr s.results (fun r => r.ai_explanation)
    ++ "\n\nPlease investigate this matter.\n\nThank you."

/-- Hex digit of a value below 16, upper case as `encodeURIComponent` emits. -/
def hexDigit (n : Nat) : Char :=
  if n < 10 then Char.ofNat (48 + n) else Char.ofNat (55 + n)

/-- UTF-8 bytes of a character, as natural numbers below 256. -/
def utf8Bytes (c : Char) : List Nat :=
  let n := c.toNat
  if n < 128 then [n]
  else if n < 2048 then [192 + n / 64, 128 + n % 64]
  else if n < 65536 then [224 + n / 4096, 128 + n / 64 % 64, 128 + n % 64]
  else [240 + n / 262144, 128 + n / 4096 % 64, 128 + n / 64 % 64, 128 + n % 64]

/-- Characters `encodeURIComponent` leaves unescaped. -/
def uriUnreserved (c : Char) : Bool :=
  c.isAlphanum || c = Char.ofNat 45 || c = Char.ofNat 95 || c = Char.ofNat 46
    || c = Char.ofNat 33 || c = Char.ofNat 126 || c = Char.ofNat 42
    || c = Char.ofNat 39 || c = Char.ofNat 40 || c = Char.ofNat 41

/-- Percent-escape of one byte: `%XX` with upper-case hex. -/
def percentByte (b : Nat) : List Char :=
  [Char.ofNat 37, hexDigit (b / 16), hexDigit (b % 16)]

/-- JavaScript `encodeURIComponent`. -/
def encodeURIComponent (s : String) : String :=
  String.mk (s.data.flatMap (fun c =>
    if uriUnreserved c then [c] else (utf8Bytes c).flatMap percentByte))

/-- The URL `handleReport` passes to `window.open`. -/
def handleReportUrl (s : AppState) : String :=
  "mailto:complaints@sebi.gov.in?subject="
    ++ encodeURIComponent (handleReportSubject s)
    ++ "&body=" ++ encodeURIComponent (handleReportBody s)

/-- `needle` occurs contiguously inside `hay`. -/
def strContains (needle hay : String) : Prop :=
  ∃ p q, hay = p ++ needle ++ q

/-- `p` is the leading part of `hay`. -/
def strStarts (p hay : String) : Prop :=
  ∃ q, hay = p ++ q

/-- A `handleVerify` run whose collaborator call succeeds with the mock
result the source builds from the current tab, input and random draws. -/
def handleVerifyMock (g : RandDraws) (s : AppState) :
    AppState × Nat × List String :=
  handleVerifyRun s (.success (mockResult g s.activeTab s.inputValue))

/-- Severity rank of the cell a score occupies in the fixed banding
partition: the red cell (`score < 40`) is most severe, then amber, then
green. -/
def bandSeverity (score : Int) : Nat :=
  if score < 40 then 2 else if score < 70 then 1 else 0

/-- Severity rank of a categorical risk level. -/
def levelRank : RiskLevel → Nat
  | .Low => 0
  | .Medium => 1
  | .High => 2

/-- Concrete state: a social-media check with a stored score-90 result. -/
def sampleReportState : AppState :=
  ⟨.social, false, some ⟨90, .High, ["r1", "r2"], "scam analysis"⟩,
    "Buy XYZ for 300% returns"⟩

/-- Concrete state: an advisor check with a stored score-77 result, before
the user switches the tab and edits the text. -/
def sampleStaleState : AppState :=
  ⟨.advisor, false, some ⟨77, .Medium, ["x1", "x2"], "why"⟩, "old input"⟩

instance (n h : String) : Decidable (strContains n h) :=
  decidable_of_iff (n.data <:+: h.data)
    ⟨fun ⟨p, q, e⟩ =>
        ⟨String.mk p, String.mk q, by
          apply String.ext
          simp [String.data_append, ← e]⟩,
      fun ⟨p, q, e⟩ => by
        subst e
        exact ⟨p.data, q.data, by simp [String.data_append]⟩⟩

theorem string_append_assoc (a b c : String) : a ++ b ++ c = a ++ (b ++ c) := by
  apply String.ext
  simp [String.data_append]

theorem strContains_iff_infix (n h : String) :
    strContains n h ↔ n.data <:+: h.data := by
  constructor
  · rintro ⟨p, q, rfl⟩
    exact ⟨p.data, q.data, by simp [String.data_append]⟩
  · rintro ⟨p, q, e⟩
    exact ⟨String.mk p, String.mk q, by
      apply String.ext
      simp [String.data_append, ← e]⟩

example : getScoreColor 95 = "text-green-600" := by decide
example : getScoreColor 35 = "text-red-600" := by decide
example : barFillColor 55 = "#D97706" := by decide
example : handleVerifyStart ⟨.advisor, false, none, "  "⟩ = (⟨.advisor, false, none, "  "⟩, 0) := by decide
example : (handleVerifyRun ⟨.social, false, none, "x"⟩ .failure).1.results = none := by decide

/-- C1: while a verification request is in flight (`loading = true`), the
submit control is disabled, so invoking submit again changes nothing and
does not invoke the verification collaborator a second time; at most one
call is ever outstanding. -/
theorem claim_C1 (s : AppState) (o : VerifyOutcome) (h : s.loading = true) :
    verifyDisabled s = true ∧ clickVerify s o = (s, 0, []) := by
  constructor
  · simp [verifyDisabled, h]
  · simp [clickVerify, verifyDisabled, h]

theorem claim_C1_witness :
    verifyDisabled ⟨Category.advisor, true, none, "hello"⟩ = true ∧
      clickVerify ⟨Category.advisor, true, none, "hello"⟩ .failure =
        (⟨Category.advisor, true, none, "hello"⟩, 0, []) :=
  claim_C1 ⟨Category.advisor, true, none, "hello"⟩ .failure rfl

/-- C2: for input whose trimmed form is non-empty, `handleVerify`
synchronously sets the loading flag and clears the stored result (one
collaborator call is then started), and a successful resolution replaces
the stored result wholesale, never merging with a prior one. -/
theorem claim_C2 (s s' : AppState) (r : VerificationResult)
    (h : ¬ jsTrim s.inputValue = "") :
    handleVerifyStart s = ({ s with loading := true, results := none }, 1) ∧
      (handleVerifySettle (.success r) s').1.results = some r := by
  constructor
  · simp [handleVerifyStart, h]
  · simp [handleVerifySettle]

theorem claim_C2_witness :
    handleVerifyStart ⟨Category.social, false,
        some ⟨10, .Low, ["old"], "old"⟩, "scam text"⟩ =
      (⟨Category.social, true, none, "scam text"⟩, 1) ∧
      (handleVerifySettle (.success ⟨90, .High, ["a"], "e"⟩)
          ⟨Category.social, true, some ⟨10, .Low, ["old"], "old"⟩,
            "scam text"⟩).1.results =
        some ⟨90, .High, ["a"], "e"⟩ :=
  claim_C2 ⟨Category.social, false, some ⟨10, .Low, ["old"], "old"⟩, "scam text"⟩
    ⟨Category.social, true, some ⟨10, .Low, ["old"], "old"⟩, "scam text"⟩
    ⟨90, .High, ["a"], "e"⟩ (by decide)

/-- C3: for input that is empty or whitespace-only after trimming, a
`handleVerify` run is a no-op: the state is returned unchanged, the
collaborator is never invoked, and nothing is logged. -/
theorem claim_C3 (s : AppState) (o : VerifyOutcome)
    (h : jsTrim s.inputValue = "") :
    handleVerifyRun s o = (s, 0, []) := by
  simp [handleVerifyRun, handleVerifyStart, h]

theorem claim_C3_witness :
    handleVerifyRun ⟨Category.anomaly, false,
        some ⟨50, .Medium, ["r"], "x"⟩, "   "⟩ .failure =
      (⟨Category.anomaly, false, some ⟨50, .Medium, ["r"], "x"⟩, "   "⟩, 0, []) :=
  claim_C3 ⟨Category.anomaly, false, some ⟨50, .Medium, ["r"], "x"⟩, "   "⟩
    .failure (by decide)

/-- C4: when the collaborator call fails, the error is caught and logged,
the loading flag is cleared, the stored result stays absent, the rendered
view is the empty (no-result) presentation rather than any error
presentation, and the state is submittable again. -/
theorem claim_C4 (s : AppState) (h : ¬ jsTrim s.inputValue = "") :
    handleVerifyRun s .failure =
      ({ s with loading := false, results := none }, 1,
        ["Verification failed:"]) ∧
      (handleVerifyRun s .failure).1.results = none ∧
      render (handleVerifyRun s .failure).1 = .empty ∧
      verifyDisabled (handleVerifyRun s .failure).1 = false := by
  have e : handleVerifyRun s .failure =
      ({ s with loading := false, results := none }, 1,
        ["Verification failed:"]) := by
    simp [handleVerifyRun, handleVerifyStart, handleVerifySettle, h]
  refine ⟨e, ?_, ?_, ?_⟩ <;> rw [e] <;> simp [render, verifyDisabled, h]

theorem claim_C4_witness :
    handleVerifyRun ⟨Category.advisor, false, none, "John Smith"⟩ .failure =
      (⟨Category.advisor, false, none, "John Smith"⟩, 1,
        ["Verification failed:"]) ∧
      (handleVerifyRun ⟨Category.advisor, false, none, "John Smith"⟩
          .failure).1.results = none ∧
      render (handleVerifyRun ⟨Category.advisor, false, none, "John Smith"⟩
          .failure).1 = .empty ∧
      verifyDisabled (handleVerifyRun ⟨Category.advisor, false, none,
          "John Smith"⟩ .failure).1 = false :=
  claim_C4 ⟨Category.advisor, false, none, "John Smith"⟩ (by decide)

/-- C5: the score banding maps `score < 40` to the red band, `40 ≤ score
< 70` to the amber band and `70 ≤ score` to the green band, both for the
numeral color class and the progress-bar fill color; in particular 95 is
green and 35 is red in both channels. -/
theorem claim_C5 (q : ℚ) :
    (q < 40 → getScoreColor q = "text-red-600" ∧ barFillColor q = "#DC2626") ∧
      (40 ≤ q → q < 70 →
        getScoreColor q = "text-yellow-600" ∧ barFillColor q = "#D97706") ∧
      (70 ≤ q →
        getScoreColor q = "text-green-600" ∧ barFillColor q = "#16A34A") ∧
      scoreNumeralColor ⟨95, .Low, ["r"], "e"⟩ = "text-green-600" ∧
      (progressBarStyle ⟨95, .Low, ["r"], "e"⟩).backgroundColor = "#16A34A" ∧
      scoreNumeralColor ⟨35, .High, ["r"], "e"⟩ = "text-red-600" ∧
      (progressBarStyle ⟨35, .High, ["r"], "e"⟩).backgroundColor = "#DC2626" := by
  refine ⟨fun h => ?_, fun h40 h70 => ?_, fun h70 => ?_, ?_, ?_, ?_, ?_⟩
  · simp [getScoreColor, barFillColor, h]
  · simp [getScoreColor, barFillColor, not_lt.2 h40, h70]
  · constructor <;>
      simp [getScoreColor, barFillColor, not_lt.2 h70,
        not_lt.2 (le_trans (by norm_num : (40 : ℚ) ≤ 70) h70)]
  all_goals decide

theorem claim_C5_witness :
    (getScoreColor 35 = "text-red-600" ∧ barFillColor 35 = "#DC2626") ∧
      (getScoreColor 55 = "text-yellow-600" ∧ barFillColor 55 = "#D97706") ∧
      (getScoreColor 95 = "text-green-600" ∧ barFillColor 95 = "#16A34A") :=
  ⟨(claim_C5 35).1 (by norm_num),
    (claim_C5 55).2.1 (by norm_num) (by norm_num),
    ((claim_C5 95).2.2.1 (by norm_num))⟩

/-- C6: the progress-bar fill width rendered by `ResultsCard` is the
literal risk score followed by a percent sign, so a score in 0–100 maps
identically (hence linearly) to a width in 0–100%. -/
theorem claim_C6 (r : VerificationResult) :
    (progressBarStyle r).width = toString r.risk_score ++ "%" ∧
      (progressBarStyle ⟨95, .Low, ["r"], "e"⟩).width = "95%" ∧
      (progressBarStyle ⟨0, .High, ["r"], "e"⟩).width = "0%" ∧
      (progressBarStyle ⟨100, .Low, ["r"], "e"⟩).width = "100%" := by
  refine ⟨rfl, ?_, ?_, ?_⟩ <;> decide

/-- C10: the banding is total over all numeric scores: every negative
score lands in the red band, every score above 100 in the green band, and
every score is assigned one of the three colors in each channel. -/
theorem claim_C10 (q : ℚ) :
    (q < 0 → getScoreColor q = "text-red-600" ∧ barFillColor q = "#DC2626") ∧
      (100 < q →
        getScoreColor q = "text-green-600" ∧ barFillColor q = "#16A34A") ∧
      (getScoreColor q = "text-red-600" ∨ getScoreColor q = "text-yellow-600" ∨
        getScoreColor q = "text-green-600") ∧
      (barFillColor q = "#DC2626" ∨ barFillColor q = "#D97706" ∨
        barFillColor q = "#16A34A") := by
  refine ⟨fun h => ?_, fun h => ?_, ?_, ?_⟩
  · simp [getScoreColor, barFillColor, lt_trans h (by norm_num : (0 : ℚ) < 40)]
  · have h40 : ¬ q < 40 := not_lt.2 (le_of_lt (lt_trans (by norm_num) h))
    have h70 : ¬ q < 70 := not_lt.2 (le_of_lt (lt_trans (by norm_num) h))
    simp [getScoreColor, barFillColor, h40, h70]
  · by_cases h40 : q < 40
    · exact Or.inl (by simp [getScoreColor, h40])
    · by_cases h70 : q < 70
      · exact Or.inr (Or.inl (by simp [getScoreColor, h40, h70]))
      · exact Or.inr (Or.inr (by simp [getScoreColor, h40, h70]))
  · by_cases h40 : q < 40
    · exact Or.inl (by simp [barFillColor, h40])
    · by_cases h70 : q < 70
      · exact Or.inr (Or.inl (by simp [barFillColor, h40, h70]))
      · exact Or.inr (Or.inr (by simp [barFillColor, h40, h70]))

theorem claim_C10_witness :
    (getScoreColor (-5) = "text-red-600" ∧ barFillColor (-5) = "#DC2626") ∧
      (getScoreColor 101 = "text-green-600" ∧ barFillColor 101 = "#16A34A") :=
  ⟨(claim_C10 (-5)).1 (by norm_num), (claim_C10 101).2.1 (by norm_num)⟩


/-- C7 counterexample: two results the program produces (and stores) where
the one in the most severe score cell (score 10) carries the label `Low`
while the one in the least severe cell (score 90) carries `High`, so
`risk_level` is not a monotonic categorization of `risk_score`. -/
theorem claim_C7_counterexample :
    (handleVerifyMock ⟨1/10, 1/2, 1/5, 0⟩
        ⟨.advisor, false, none, "x"⟩).1.results =
      some (mockResult ⟨1/10, 1/2, 1/5, 0⟩ .advisor "x") ∧
      (handleVerifyMock ⟨9/10, 7/10, 0, 0⟩
          ⟨.advisor, false, none, "x"⟩).1.results =
        some (mockResult ⟨9/10, 7/10, 0, 0⟩ .advisor "x") ∧
      bandSeverity (mockResult ⟨1/10, 1/2, 1/5, 0⟩ .advisor "x").risk_score >
        bandSeverity (mockResult ⟨9/10, 7/10, 0, 0⟩ .advisor "x").risk_score ∧
      levelRank (mockResult ⟨1/10, 1/2, 1/5, 0⟩ .advisor "x").risk_level <
        levelRank (mockResult ⟨9/10, 7/10, 0, 0⟩ .advisor "x").risk_level := by
  have hs1 : (mockResult ⟨1/10, 1/2, 1/5, 0⟩ .advisor "x").risk_score = 10 := by
    simp only [mockResult]
    norm_num
  have hs2 : (mockResult ⟨9/10, 7/10, 0, 0⟩ .advisor "x").risk_score = 90 := by
    simp only [mockResult]
    norm_num
  have hl1 : (mockResult ⟨1/10, 1/2, 1/5, 0⟩ .advisor "x").risk_level = .Low := by
    simp only [mockResult]
    norm_num
  have hl2 : (mockResult ⟨9/10, 7/10, 0, 0⟩ .advisor "x").risk_level = .High := by
    simp only [mockResult]
    norm_num
  refine ⟨?_, ?_, ?_, ?_⟩
  · simp [handleVerifyMock, handleVerifyRun, handleVerifyStart,
      handleVerifySettle, jsTrim]
  · simp [handleVerifyMock, handleVerifyRun, handleVerifyStart,
      handleVerifySettle, jsTrim]
  · rw [hs1, hs2]
    decide
  · rw [hl1, hl2]
    decide

/-- C7 amended: `risk_level` is assigned independently of `risk_score` —
it is a function of the second and third random draws alone — and the
monotonic-categorization invariant fails on producible results: the pair
with draws (1/10, 1/2, 1/5) and (9/10, 7/10, 0) puts the more severe score
cell with the strictly lower label. -/
theorem claim_C7 (g g' : RandDraws) (tab tab' : Category) (t t' : String)
    (h2 : g.r2 = g'.r2) (h3 : g.r3 = g'.r3) :
    (mockResult g tab t).risk_level = (mockResult g' tab' t').risk_level ∧
      bandSeverity (mockResult ⟨1/10, 1/2, 1/5, 0⟩ .social "y").risk_score >
        bandSeverity (mockResult ⟨9/10, 7/10, 0, 0⟩ .social "y").risk_score ∧
      levelRank (mockResult ⟨1/10, 1/2, 1/5, 0⟩ .social "y").risk_level <
        levelRank (mockResult ⟨9/10, 7/10, 0, 0⟩ .social "y").risk_level := by
  have hs1 : (mockResult ⟨1/10, 1/2, 1/5, 0⟩ .social "y").risk_score = 10 := by
    simp only [mockResult]
    norm_num
  have hs2 : (mockResult ⟨9/10, 7/10, 0, 0⟩ .social "y").risk_score = 90 := by
    simp only [mockResult]
    norm_num
  have hl1 : (mockResult ⟨1/10, 1/2, 1/5, 0⟩ .social "y").risk_level = .Low := by
    simp only [mockResult]
    norm_num
  have hl2 : (mockResult ⟨9/10, 7/10, 0, 0⟩ .social "y").risk_level = .High := by
    simp only [mockResult]
    norm_num
  refine ⟨?_, ?_, ?_⟩
  · simp [mockResult, h2, h3]
  · rw [hs1, hs2]
    decide
  · rw [hl1, hl2]
    decide

theorem claim_C7_witness :
    (mockResult ⟨0, 1/2, 1/5, 0⟩ Category.advisor "a").risk_level =
      (mockResult ⟨1, 1/2, 1/5, 1⟩ Category.social "b").risk_level ∧
      bandSeverity (mockResult ⟨1/10, 1/2, 1/5, 0⟩ .social "y").risk_score >
        bandSeverity (mockResult ⟨9/10, 7/10, 0, 0⟩ .social "y").risk_score ∧
      levelRank (mockResult ⟨1/10, 1/2, 1/5, 0⟩ .social "y").risk_level <
        levelRank (mockResult ⟨9/10, 7/10, 0, 0⟩ .social "y").risk_level :=
  claim_C7 ⟨0, 1/2, 1/5, 0⟩ ⟨1, 1/2, 1/5, 1⟩ Category.advisor Category.social
    "a" "b" rfl rfl

theorem strContains_here (p q n : String) : strContains n (p ++ (n ++ q)) :=
  ⟨p, q, (string_append_assoc p n q).symm⟩

theorem strContains_cons (a n rest : String) (h : strContains n rest) :
    strContains n (a ++ rest) := by
  obtain ⟨p, q, e⟩ := h
  exact ⟨a ++ p, q, by rw [e]; simp [string_append_assoc]⟩

/-- What the `handleReport` body embeds whenever a result is stored: the
current tab id, the current input text, the result's score, its reasons
joined by a comma and space, and its explanation. -/
theorem handleReportBody_parts (s : AppState) (r : VerificationResult)
    (h : s.results = some r) :
    strContains s.activeTab.id (handleReportBody s) ∧
      strContains s.inputValue (handleReportBody s) ∧
      strContains (toString r.risk_score) (handleReportBody s) ∧
      strContains (String.intercalate ", " r.reasons) (handleReportBody s) ∧
      strContains r.ai_explanation (handleReportBody s) := by
  have hb : handleReportBody s =
      "Dear SEBI,\n\nI would like to report a potential fraud case:\n\nType: "
        ++ (s.activeTab.id ++ ("\nContent: " ++ (s.inputValue
        ++ ("\nRisk Score: " ++ (toString r.risk_score
        ++ ("\nReasons: " ++ (String.intercalate ", " r.reasons
        ++ ("\n\nAI Analysis: " ++ (r.ai_explanation
        ++ "\n\nPlease investigate this matter.\n\nThank you."))))))))) := by
    simp [handleReportBody, h, jsOptStr, string_append_assoc]
  rw [hb]
  refine ⟨strContains_here _ _ _,
    strContains_cons _ _ _ (strContains_cons _ _ _ (strContains_here _ _ _)),
    ?_, ?_, ?_⟩
  · exact strContains_cons _ _ _ (strContains_cons _ _ _ (strContains_cons _ _ _
      (strContains_cons _ _ _ (strContains_here _ _ _))))
  · exact strContains_cons _ _ _ (strContains_cons _ _ _ (strContains_cons _ _ _
      (strContains_cons _ _ _ (strContains_cons _ _ _ (strContains_cons _ _ _
        (strContains_here _ _ _))))))
  · exact strContains_cons _ _ _ (strContains_cons _ _ _ (strContains_cons _ _ _
      (strContains_cons _ _ _ (strContains_cons _ _ _ (strContains_cons _ _ _
        (strContains_cons _ _ _ (strContains_cons _ _ _
          (strContains_here _ _ _))))))))

set_option maxRecDepth 40000 in
/-- C8 counterexample: with reasons `["a", "b"]`, the composed body does
not contain the reasons joined by newlines; it contains them joined by a
comma and a space instead. -/
theorem claim_C8_counterexample :
    ¬ strContains (String.intercalate "\n" ["a", "b"])
        (handleReportBody
          ⟨.social, false, some ⟨90, .High, ["a", "b"], "e"⟩, "t"⟩) ∧
      strContains (String.intercalate ", " ["a", "b"])
        (handleReportBody
          ⟨.social, false, some ⟨90, .High, ["a", "b"], "e"⟩, "t"⟩) := by
  constructor <;> decide

theorem uriUnreserved_hexDigit (n : Nat) (h : n < 16) :
    uriUnreserved (hexDigit n) = true := by
  interval_cases n <;> decide

theorem utf8Bytes_lt_256 (c : Char) : ∀ b ∈ utf8Bytes c, b < 256 := by
  have hc : c.toNat < 1114112 := by
    rcases c.valid with h | ⟨_, h2⟩
    · exact lt_trans h (by norm_num)
    · exact h2
  intro b hb
  simp only [utf8Bytes] at hb
  split at hb <;> [skip; split at hb <;> [skip; split at hb]] <;>
    simp only [List.mem_cons, List.mem_singleton, List.not_mem_nil,
      or_false] at hb <;> omega

/-- Every character `encodeURIComponent` emits is either a character it
leaves unescaped or part of a `%XX` escape. -/
theorem encodeURIComponent_safe (x : String) :
    (encodeURIComponent x).data.all
      (fun c => uriUnreserved c || c = Char.ofNat 37) = true := by
  obtain ⟨l⟩ := x
  show (l.flatMap fun c =>
    if uriUnreserved c then [c] else (utf8Bytes c).flatMap percentByte).all
      (fun c => uriUnreserved c || c = Char.ofNat 37) = true
  rw [List.all_flatMap, List.all_eq_true]
  intro a _
  by_cases ha : uriUnreserved a
  · simp [ha]
  · simp only [ha, Bool.false_eq_true, if_false]
    rw [List.all_flatMap, List.all_eq_true]
    intro b hb
    have hb256 : b < 256 := utf8Bytes_lt_256 a b hb
    simp [percentByte, uriUnreserved_hexDigit (b / 16) (by omega),
      uriUnreserved_hexDigit (b % 16) (by omega)]

/-- C8 amended: the complaint draft is a pure function of the state's
category, input text and stored result; its body embeds the category id,
the original input, the risk score, the reasons joined by a comma and a
space (not by newlines), and the explanation; subject and body are
percent-encoded into the `mailto:` link, whose characters are all either
unescaped-safe or parts of `%XX` escapes. -/
theorem claim_C8 (s : AppState) (r : VerificationResult)
    (h : s.results = some r) :
    strContains s.activeTab.id (handleReportBody s) ∧
      strContains s.inputValue (handleReportBody s) ∧
      strContains (toString r.risk_score) (handleReportBody s) ∧
      strContains (String.intercalate ", " r.reasons) (handleReportBody s) ∧
      strContains r.ai_explanation (handleReportBody s) ∧
      handleReportUrl s =
        "mailto:complaints@sebi.gov.in?subject="
          ++ encodeURIComponent (handleReportSubject s)
          ++ "&body=" ++ encodeURIComponent (handleReportBody s) ∧
      (encodeURIComponent (handleReportSubject s)).data.all
        (fun c => uriUnreserved c || c = Char.ofNat 37) = true ∧
      (encodeURIComponent (handleReportBody s)).data.all
        (fun c => uriUnreserved c || c = Char.ofNat 37) = true := by
  obtain ⟨h1, h2, h3, h4, h5⟩ := handleReportBody_parts s r h
  exact ⟨h1, h2, h3, h4, h5, rfl, encodeURIComponent_safe _,
    encodeURIComponent_safe _⟩


theorem claim_C8_witness :
    strContains "social" (handleReportBody sampleReportState) ∧
      strContains "Buy XYZ for 300% returns"
        (handleReportBody sampleReportState) ∧
      strContains "90" (handleReportBody sampleReportState) ∧
      strContains "r1, r2" (handleReportBody sampleReportState) ∧
      strContains "scam analysis" (handleReportBody sampleReportState) ∧
      handleReportUrl sampleReportState =
        "mailto:complaints@sebi.gov.in?subject="
          ++ encodeURIComponent (handleReportSubject sampleReportState)
          ++ "&body="
          ++ encodeURIComponent (handleReportBody sampleReportState) ∧
      (encodeURIComponent (handleReportSubject sampleReportState)).data.all
        (fun c => uriUnreserved c || c = Char.ofNat 37) = true ∧
      (encodeURIComponent (handleReportBody sampleReportState)).data.all
        (fun c => uriUnreserved c || c = Char.ofNat 37) = true :=
  claim_C8 sampleReportState ⟨90, .High, ["r1", "r2"], "scam analysis"⟩ rfl

/-- C9: the complaint draft reads the category and input text live from
state: after a result is stored, switching the tab and editing the text
leaves the stored result in place, and the draft then embeds the new
category id and new text together with the old result's score, reasons and
explanation; the link is always addressed to `complaints@sebi.gov.in`. -/
theorem claim_C9 (s : AppState) (r : VerificationResult) (c : Category)
    (t : String) (h : s.results = some r) :
    (setActiveTab c (setInputValue t s)).results = some r ∧
      strContains c.id (handleReportBody (setActiveTab c (setInputValue t s))) ∧
      strContains t (handleReportBody (setActiveTab c (setInputValue t s))) ∧
      strContains (toString r.risk_score)
        (handleReportBody (setActiveTab c (setInputValue t s))) ∧
      strContains (String.intercalate ", " r.reasons)
        (handleReportBody (setActiveTab c (setInputValue t s))) ∧
      strContains r.ai_explanation
        (handleReportBody (setActiveTab c (setInputValue t s))) ∧
      strStarts "mailto:complaints@sebi.gov.in"
        (handleReportUrl (setActiveTab c (setInputValue t s))) := by
  have hres : (setActiveTab c (setInputValue t s)).results = some r := by
    simp [setActiveTab, setInputValue, h]
  obtain ⟨h1, h2, h3, h4, h5⟩ := handleReportBody_parts _ r hres
  refine ⟨hres, h1, h2, h3, h4, h5, ?_⟩
  refine ⟨"?subject="
    ++ encodeURIComponent
      (handleReportSubject (setActiveTab c (setInputValue t s)))
    ++ "&body="
    ++ encodeURIComponent
      (handleReportBody (setActiveTab c (setInputValue t s))), ?_⟩
  have lit : "mailto:complaints@sebi.gov.in?subject=" =
      "mailto:complaints@sebi.gov.in" ++ "?subject=" := by decide
  show "mailto:complaints@sebi.gov.in?subject="
      ++ encodeURIComponent
        (handleReportSubject (setActiveTab c (setInputValue t s)))
      ++ "&body="
      ++ encodeURIComponent
        (handleReportBody (setActiveTab c (setInputValue t s))) = _
  rw [lit]
  simp only [string_append_assoc]


theorem claim_C9_witness :
    (setActiveTab .announcement
        (setInputValue "edited input" sampleStaleState)).results =
      some ⟨77, .Medium, ["x1", "x2"], "why"⟩ ∧
      strContains "announcement" (handleReportBody (setActiveTab .announcement
        (setInputValue "edited input" sampleStaleState))) ∧
      strContains "edited input" (handleReportBody (setActiveTab .announcement
        (setInputValue "edited input" sampleStaleState))) ∧
      strContains "77" (handleReportBody (setActiveTab .announcement
        (setInputValue "edited input" sampleStaleState))) ∧
      strContains "x1, x2" (handleReportBody (setActiveTab .announcement
        (setInputValue "edited input" sampleStaleState))) ∧
      strContains "why" (handleReportBody (setActiveTab .announcement
        (setInputValue "edited input" sampleStaleState))) ∧
      strStarts "mailto:complaints@sebi.gov.in"
        (handleReportUrl (setActiveTab .announcement
          (setInputValue "edited input" sampleStaleState))) :=
  claim_C9 sampleStaleState ⟨77, .Medium, ["x1", "x2"], "why"⟩ .announcement
    "edited input" rfl
